import Mathlib

/-
Verification of the LifeX backend trust core (hashing/ledger registration,
field-level encryption, audit trail, login lockout) against its
natural-language specification.

Shallow embedding conventions:
* Python text and byte strings are modelled as Lean `String` / `List Nat`
  (a `str` and its UTF-8 bytes are identified, since `str.encode`/`bytes.decode`
  are mutually inverse on the values that occur here).
* Django ORM writes run in autocommit mode: each successful
  `Model.objects.create(...)` / `instance.save()` persists immediately, so a
  later exception in the same request does not roll earlier writes back.
  `Model(**kwargs)` raises `TypeError` when a keyword is not a declared field;
  this is modelled by `djangoCreate` over the lists of declared field names
  copied from `blockchain/models.py`.
* Raised Python exceptions are modelled with `Except`; a Django REST Framework
  view that lets an exception escape (or catches it in a generic
  `except Exception` block) produces the 500 response, modelled as
  `.serverError`.
* The Fernet cipher from the third-party `cryptography` package is an external
  collaborator: it is passed in as a pair of functions (`fenc`, nonce-indexed
  because Fernet tokens embed a fresh IV/timestamp, and `fdec`, which may
  raise, modelled as `Except`).
-/

namespace LifeX

/-! ## EncryptionManager (src/lifex/blockchain/encryption.py) -/

/-- Embedding of `EncryptionManager.encrypt` (encryption.py lines 27-39):
`None` is passed through; otherwise the text is encoded and handed to
`self.fernet.encrypt`, and the resulting token is decoded back to text.
`fenc` is the library encrypt function under the process-wide key; the `nonce`
argument models the fresh IV/timestamp Fernet mixes into each call, which is
why two calls on the same plaintext may differ. -/
def EncryptionManager.encrypt (fenc : Nat → List Nat → List Nat) (nonce : Nat) :
    Option (List Nat) → Option (List Nat)
  | none => none
  | some d => some (fenc nonce d)

/-- Embedding of `EncryptionManager.decrypt` (encryption.py lines 41-58):
`None` is passed through; otherwise `self.fernet.decrypt` (modelled by `fdec`,
`Except.error` meaning the library raised on malformed or foreign-key input)
runs inside `try:` and the `except Exception` clause returns `None`.  The
outer `Except` in the result type records whether an exception escapes to the
caller: by construction every branch returns `Except.ok`. -/
def EncryptionManager.decrypt (fdec : List Nat → Except Unit (List Nat)) :
    Option (List Nat) → Except Unit (Option (List Nat))
  | none => Except.ok none
  | some c =>
    match fdec c with
    | Except.ok d => Except.ok (some d)
    | Except.error _ => Except.ok none

/-- Concrete stand-in cipher used to instantiate the library parameters in
witnesses: prepends the nonce; its decrypt strips one element and fails on the
empty token. -/
def cipherEnc : Nat → List Nat → List Nat := fun n d => n :: d

/-- Decrypt side of `cipherEnc`; fails (raises) on the empty token. -/
def cipherDec : List Nat → Except Unit (List Nat)
  | [] => Except.error ()
  | _ :: d => Except.ok d

/-! ## Django ORM write semantics and declared fields -/

/-- Python exception kinds relevant here: `TypeError` from `Model(**kwargs)`
with an undeclared keyword, and a database-level failure on the write. -/
inductive PyErr
  | typeError
  | dbError
deriving DecidableEq

/-- Semantics of `Model.objects.create(**kwargs)`: Django first checks every
keyword against the declared fields and raises `TypeError` on an
unknown one; only then does the INSERT run, which fails when the store is
unavailable (`dbOk = false`). -/
def djangoCreate (dbOk : Bool) (fields kwargs : List String) : Except PyErr Unit :=
  if kwargs.all fields.contains then
    if dbOk then Except.ok () else Except.error PyErr.dbError
  else Except.error PyErr.typeError

/-- Field names declared on `AuditLog` (blockchain/models.py lines 208-248):
note there is no `is_encrypted` field. -/
def auditLogFieldNames : List String :=
  ["id", "user", "action", "resource_type", "resource_id", "details",
   "ip_address", "created_at"]

/-- Field names declared on `MedicalRecord` (blockchain/models.py lines 6-104):
note there is no `is_encrypted` field. -/
def medicalRecordFieldNames : List String :=
  ["id", "patient", "uploaded_by", "record_type", "title", "description",
   "department", "date_of_service", "document_file", "file_size",
   "document_id", "document_hash", "blockchain_address", "transaction_hash",
   "block_number", "status", "is_verified", "created_at", "updated_at",
   "registered_on_blockchain_at"]

/-- Field names declared on `BlockchainTransaction` (blockchain/models.py
lines 163-205). -/
def blockchainTransactionFieldNames : List String :=
  ["id", "user", "transaction_type", "transaction_hash", "block_number",
   "gas_used", "document", "status", "error_message", "created_at"]

/-- Keyword names `log_action` passes to `AuditLog.objects.create`
(medical_views.py lines 41-49); it always includes `is_encrypted`. -/
def logActionKwargNames : List String :=
  ["user", "action", "resource_type", "resource_id", "details", "ip_address",
   "is_encrypted"]

/-- Keyword names reaching `MedicalRecord` creation from
`serializer.save(...)` in `UploadMedicalRecordView.post` (medical_views.py
lines 127-139): the serializer validated fields (after `patient_email` is
popped) merged with the explicit save keywords, including `is_encrypted`. -/
def uploadSaveKwargNames : List String :=
  ["record_type", "title", "description", "department", "date_of_service",
   "document_file", "patient", "uploaded_by", "document_id", "document_hash",
   "blockchain_address", "transaction_hash", "block_number", "status",
   "is_verified", "is_encrypted", "registered_on_blockchain_at"]

/-- Keyword names for the REGISTER `BlockchainTransaction` row
(medical_views.py lines 142-149). -/
def uploadTxKwargNames : List String :=
  ["user", "transaction_type", "transaction_hash", "block_number", "gas_used",
   "status"]

/-- Keyword names for the VERIFY `BlockchainTransaction` row
(medical_views.py lines 256-263). -/
def verifyTxKwargNames : List String :=
  ["user", "transaction_type", "transaction_hash", "block_number", "gas_used",
   "status"]

/-- Keyword names for the ACCOUNT_LOCKOUT audit row (users/views.py lines
201-208). -/
def lockoutAuditKwargNames : List String :=
  ["user", "action", "resource_type", "resource_id", "details", "ip_address"]

/-- Keyword names used by `AuditMiddleware.process_response`
(lifex/middleware.py lines 35-42). -/
def middlewareKwargNames : List String :=
  ["user", "action", "resource_type", "resource_id", "details", "ip_address"]

/-! ## Audit rows and the log_action helper -/

/-- One persisted `AuditLog` row (the columns the model declares). -/
structure AuditRow where
  user : Option Nat
  action : String
  resource_type : String
  resource_id : String
  details : String
  ip_address : String
deriving DecidableEq

/-- Embedding of the `log_action` helper (medical_views.py lines 31-49): it
always calls `AuditLog.objects.create` with the keyword set
`logActionKwargNames` (which contains `is_encrypted`).  On success the row is
appended to the audit table; an exception is reported as `Except.error`.  The
client IP extraction from request headers is abstracted into the `ip`
argument. -/
def log_action (audit : List AuditRow) (dbOk : Bool) (user : Option Nat)
    (action resource_type resource_id details ip : String) (is_enc : Bool) :
    Except PyErr (List AuditRow) :=
  let row : AuditRow :=
    { user := user, action := action, resource_type := resource_type,
      resource_id := resource_id, details := details, ip_address := ip }
  match djangoCreate dbOk auditLogFieldNames logActionKwargNames with
  | Except.ok _ => Except.ok (audit ++ [row])
  | Except.error e =>
    let _ := is_enc
    Except.error e

/-- HTTP-method to action-tag map of `AuditMiddleware` (middleware.py lines
20-27). -/
def actionMap (method : String) : String :=
  if method == "POST" then "CREATE"
  else if method == "PUT" then "UPDATE"
  else if method == "PATCH" then "PARTIAL_UPDATE"
  else if method == "DELETE" then "DELETE"
  else "UNKNOWN"

/-- Embedding of `AuditMiddleware.process_response` (middleware.py lines
9-47): for authenticated data-modifying requests outside `/api/auth/` it
attempts one audit insert (its keyword set is valid for `AuditLog`), and the
`except Exception: pass` clause swallows any failure; the incoming response
object is returned in every branch. -/
def processResponse {α : Type} (audit : List AuditRow) (dbOk : Bool)
    (isAuthenticated : Bool) (method path ip : String) (resp : α) :
    List AuditRow × α :=
  if isAuthenticated && (method == "POST" || method == "PUT" ||
      method == "PATCH" || method == "DELETE") then
    if (path.splitOn "/api/auth/").length > 1 then (audit, resp)
    else
      let parts := (path.splitOn "/").filter (fun p => p ≠ "")
      let action := actionMap method
      let resource_type := if parts.length > 1 then parts.getD 1 "" else "general"
      let resource_id := if parts.length > 2 then parts.getD 2 "" else ""
      let row : AuditRow :=
        { user := some 0, action := action ++ "_" ++ resource_type.toUpper,
          resource_type := resource_type, resource_id := resource_id,
          details := "Path: " ++ path, ip_address := ip }
      match djangoCreate dbOk auditLogFieldNames middlewareKwargNames with
      | Except.ok _ => (audit ++ [row], resp)
      | Except.error _ => (audit, resp)
  else (audit, resp)

/-! ## Ledger simulator (BlockchainService)

Modelled from the spec: `blockchain/blockchain_service.py` is not part of the
provided sources (only its callers in `medical_views.py` are), so the
`LedgerSimulator` contract of spec section 4.2 is embedded directly: an
append-only chain of transactions with strictly increasing block numbers
starting at 1, `DuplicateDocumentError` when a document identifier already has
a transaction, and verification comparing the supplied fingerprint against the
stored REGISTER fingerprint. -/

/-- Error taxonomy of spec section 7 as raised by the ledger. -/
inductive LedgerError
  | DuplicateDocumentError
  | UnknownDocumentError
  | LedgerUnavailable
deriving DecidableEq

/-- One immutable ledger transaction. -/
structure LedgerTx where
  txType : String
  subject : String
  documentId : String
  fingerprint : String
  category : String
  status : String
  txHash : String
  blockNumber : Nat
  gasUsed : Nat
deriving DecidableEq

/-- The simulated chain: appended transactions plus the next block number
(one block per transaction, numbers starting at 1). -/
structure Ledger where
  txs : List LedgerTx
  nextBlock : Nat
deriving DecidableEq

/-- The receipt returned by a successful registration. -/
structure Receipt where
  transaction_hash : String
  block_number : Nat
  gas_used : Nat
deriving DecidableEq

/-- The result returned by ledger verification. -/
structure VerifyResult where
  is_valid : Bool
  transaction_hash : String
  block_number : Nat
  gas_used : Nat
deriving DecidableEq

/-- Modelled from the spec: deterministic per-subject address derivation
(`addressFor`); the exact digest is immaterial to the claims, only
determinism is used. -/
def addressFor (subjectId : String) : String := "0x" ++ subjectId

/-- Modelled from the spec: a freshly generated unique transaction hash;
uniqueness is obtained from the strictly increasing block counter. -/
def mkTxHash (n : Nat) : String := "0x" ++ toString n

/-- Modelled from the spec: `BlockchainService.get_account_for_user`. -/
def get_account_for_user (userId : Nat) : String := addressFor (toString userId)

/-- Modelled from the spec (section 4.2): `register` fails with
`DuplicateDocumentError` when the document identifier already has a
transaction, leaving the chain unchanged; otherwise it appends one REGISTER
transaction in a fresh block and returns the receipt with status SUCCESS. -/
def Ledger.register (L : Ledger) (subjectId docId fp category : String) :
    Ledger × Except LedgerError Receipt :=
  if L.txs.any (fun t => t.documentId == docId) then
    (L, Except.error LedgerError.DuplicateDocumentError)
  else
    let tx : LedgerTx :=
      { txType := "REGISTER", subject := addressFor subjectId,
        documentId := docId, fingerprint := fp, category := category,
        status := "SUCCESS", txHash := mkTxHash L.nextBlock,
        blockNumber := L.nextBlock, gasUsed := 21000 }
    ({ txs := L.txs ++ [tx], nextBlock := L.nextBlock + 1 },
     Except.ok { transaction_hash := tx.txHash, block_number := tx.blockNumber,
                 gas_used := tx.gasUsed })

/-- Modelled from the spec (section 4.2): `verify` looks up the stored
REGISTER transaction (`UnknownDocumentError` when absent, chain unchanged),
appends a VERIFY transaction whose status is SUCCESS exactly when the supplied
fingerprint equals the stored one, and returns `is_valid` reflecting that
comparison. -/
def Ledger.verify (L : Ledger) (docId fp : String) :
    Ledger × Except LedgerError VerifyResult :=
  match L.txs.find? (fun t => t.documentId == docId && t.txType == "REGISTER") with
  | none => (L, Except.error LedgerError.UnknownDocumentError)
  | some t =>
    let ok := fp == t.fingerprint
    let vtx : LedgerTx :=
      { txType := "VERIFY", subject := t.subject, documentId := docId,
        fingerprint := fp, category := t.category,
        status := if ok then "SUCCESS" else "FAILED",
        txHash := mkTxHash L.nextBlock, blockNumber := L.nextBlock,
        gasUsed := 21000 }
    ({ txs := L.txs ++ [vtx], nextBlock := L.nextBlock + 1 },
     Except.ok { is_valid := ok, transaction_hash := vtx.txHash,
                 block_number := vtx.blockNumber, gas_used := vtx.gasUsed })

/-! ## Medical record and transaction tables, upload and verify views -/

/-- One persisted `MedicalRecord` row (the claim-relevant columns). -/
structure MedicalRecordRow where
  id : Nat
  patient : Nat
  uploaded_by : Option Nat
  record_type : String
  document_id : String
  document_hash : String
  blockchain_address : String
  transaction_hash : String
  block_number : Option Nat
  status : String
  is_verified : Bool
deriving DecidableEq

/-- One persisted `BlockchainTransaction` row. -/
structure BtTxRow where
  user : Nat
  transaction_type : String
  transaction_hash : String
  block_number : Option Nat
  gas_used : Option Nat
  status : String
deriving DecidableEq

/-- The Django-side persistent state touched by the record views. -/
structure ClinicState where
  records : List MedicalRecordRow
  txs : List BtTxRow
  audit : List AuditRow
deriving DecidableEq

/-- Responses of the record views, as seen by the caller. -/
inductive MedResp
  | created
  | okValid (is_valid : Bool)
  | notFound
  | serverError
deriving DecidableEq

/-- Embedding of `UploadMedicalRecordView.post` (medical_views.py lines
96-175).  The whole body runs inside one `try:` whose `except Exception`
returns a 500 response.  `ledgerResult` is the outcome of
`blockchain_service.register_document` at the view boundary (an exception or
a receipt).  On a receipt, `serializer.save(...)` creates the `MedicalRecord`
with the keyword set `uploadSaveKwargNames` (which includes `is_encrypted`,
undeclared on the model) and with status CONFIRMED and `is_verified` set to true
(lines 135-136); then the REGISTER `BlockchainTransaction` row and the
`log_action` audit append follow, each persisting as it succeeds. -/
def uploadPost (st : ClinicState) (dbOk : Bool)
    (ledgerResult : Except LedgerError Receipt) (patientId uploaderId : Nat)
    (record_type docId docHash ip : String) : ClinicState × MedResp :=
  match ledgerResult with
  | Except.error _ => (st, MedResp.serverError)
  | Except.ok rcpt =>
    match djangoCreate dbOk medicalRecordFieldNames uploadSaveKwargNames with
    | Except.error _ => (st, MedResp.serverError)
    | Except.ok _ =>
      let newRec : MedicalRecordRow :=
        { id := st.records.length + 1, patient := patientId,
          uploaded_by := some uploaderId, record_type := record_type,
          document_id := docId, document_hash := docHash,
          blockchain_address := get_account_for_user patientId,
          transaction_hash := rcpt.transaction_hash,
          block_number := some rcpt.block_number,
          status := "CONFIRMED", is_verified := true }
      let st1 := { st with records := st.records ++ [newRec] }
      match djangoCreate dbOk blockchainTransactionFieldNames uploadTxKwargNames with
      | Except.error _ => (st1, MedResp.serverError)
      | Except.ok _ =>
        let txRow : BtTxRow :=
          { user := patientId, transaction_type := "REGISTER",
            transaction_hash := rcpt.transaction_hash,
            block_number := some rcpt.block_number,
            gas_used := some rcpt.gas_used, status := "SUCCESS" }
        let st2 := { st1 with txs := st1.txs ++ [txRow] }
        match log_action st2.audit dbOk (some uploaderId) "UPLOAD_RECORD"
            "MEDICAL_RECORD" (toString newRec.id)
            ("Uploaded " ++ record_type) ip true with
        | Except.ok audit2 => ({ st2 with audit := audit2 }, MedResp.created)
        | Except.error _ => (st2, MedResp.serverError)

/-- Embedding of `VerifyMyRecordView.post` (medical_views.py lines 236-285):
record lookup scoped to the requesting patient (404 when absent), re-hash of
the stored file (`currentHash` is the fingerprint of its current bytes),
ledger verification, persisting `record.is_verified = is_valid`, appending the
VERIFY `BlockchainTransaction` row with status SUCCESS exactly when
`is_valid`, then the `log_action` audit append; any exception after the
lookup is caught by `except Exception` and returned as a 500 response. -/
def verifyPost (st : ClinicState) (L : Ledger) (dbOk : Bool)
    (patientId recordId : Nat) (currentHash ip : String) :
    ClinicState × Ledger × MedResp :=
  match st.records.find? (fun r => r.id == recordId && r.patient == patientId) with
  | none => (st, L, MedResp.notFound)
  | some r =>
    match Ledger.verify L r.document_id currentHash with
    | (L2, Except.error _) => (st, L2, MedResp.serverError)
    | (L2, Except.ok vr) =>
      if dbOk then
        let r2 := { r with is_verified := vr.is_valid }
        let st1 := { st with
          records := st.records.map (fun x => if x.id == r.id then r2 else x) }
        match djangoCreate dbOk blockchainTransactionFieldNames verifyTxKwargNames with
        | Except.error _ => (st1, L2, MedResp.serverError)
        | Except.ok _ =>
          let txRow : BtTxRow :=
            { user := patientId, transaction_type := "VERIFY",
              transaction_hash := vr.transaction_hash,
              block_number := some vr.block_number,
              gas_used := some vr.gas_used,
              status := if vr.is_valid then "SUCCESS" else "FAILED" }
          let st2 := { st1 with txs := st1.txs ++ [txRow] }
          match log_action st2.audit dbOk (some patientId) "VERIFY_RECORD"
              "MEDICAL_RECORD" (toString r.id)
              ("Verified record " ++ r.document_id) ip false with
          | Except.ok audit2 => ({ st2 with audit := audit2 }, L2, MedResp.okValid vr.is_valid)
          | Except.error _ => (st2, L2, MedResp.serverError)
      else (st, L2, MedResp.serverError)

/-! ## Login view and lockout state (src/lifex/users/views.py)

The `User` model (users/models.py lines 56-165) declares no
`failed_login_attempts` and no `last_failed_login` column, and
`users/views.py` never imports `timezone` (its module-level imports are lines
1-19 and 111), yet `UserLoginView.post` reads and writes both names.  The
embedding therefore models Python name resolution explicitly: attribute reads
of the undeclared columns go through `getFailedLoginAttempts` /
`getLastFailedLogin` (raising AttributeError against the declared field
list), and every `timezone.now()` evaluation goes through `timezoneNow`
(raising NameError against the module name list).  An exception escaping the
view produces the 500 response. -/

/-- Python exception kinds raised by the login view: AttributeError from
reading an undeclared model attribute and NameError from an unbound module
name. -/
inductive PyExn
  | attributeError
  | nameError
deriving DecidableEq

/-- Field names declared on the `User` model (users/models.py lines 56-165,
plus `password` and `last_login` from `AbstractBaseUser`): note there is no
`failed_login_attempts` and no `last_failed_login`. -/
def userFieldNames : List String :=
  ["id", "password", "last_login", "is_superuser", "email", "first_name",
   "last_name", "date_of_birth", "gender", "phone_number", "address_line1",
   "address_line2", "city", "state_province", "postal_code", "country",
   "emergency_contact_name", "emergency_contact_phone",
   "emergency_contact_relationship", "role", "department", "employee_id",
   "license_number", "specialization", "is_active", "is_staff", "date_joined"]

/-- Module-level names bound in users/views.py by its import statements
(lines 1-19 and 111): `timezone` is not among them. -/
def usersViewsModuleNames : List String :=
  ["status", "generics", "permissions", "Response", "APIView", "RefreshToken",
   "TokenObtainPairView", "authenticate", "get_user_model",
   "validate_password", "UserLoginSerializer", "UserSerializer",
   "UserUpdateSerializer", "ChangePasswordSerializer",
   "StaffProvisioningSerializer", "IsOwnerOrAdmin", "IsAdmin",
   "send_staff_invitation_email", "StaffInvitation", "User", "extend_schema",
   "OpenApiResponse"]

/-- The user row as the login view sees it.  The two lockout values are
carried as the hypothetical authentication-record columns the spec (and the
claims) quantify over; they are not declared on the `User` model, so the
embedded view reaches them only through the guarded attribute reads below.
Timestamps are seconds as integers; `credsOk` elsewhere stands for
`authenticate(...)` returning this user. -/
structure LoginUser where
  id : Nat
  email : String
  is_active : Bool
  failed_login_attempts : Nat
  last_failed_login : Option Int
deriving DecidableEq

/-- Python attribute read `temp_user.failed_login_attempts` (users/views.py
lines 146, 187): on a Django model instance an undeclared attribute raises
AttributeError, so this returns the value only if the field were declared. -/
def getFailedLoginAttempts (u : LoginUser) : Except PyExn Nat :=
  if userFieldNames.contains "failed_login_attempts" then
    Except.ok u.failed_login_attempts
  else Except.error PyExn.attributeError

/-- Python attribute read `temp_user.last_failed_login` (users/views.py line
148), guarded like `getFailedLoginAttempts`. -/
def getLastFailedLogin (u : LoginUser) : Except PyExn (Option Int) :=
  if userFieldNames.contains "last_failed_login" then
    Except.ok u.last_failed_login
  else Except.error PyExn.attributeError

/-- Evaluation of `timezone.now()` in users/views.py (lines 148, 149, 188):
the module never imports `timezone`, so the name lookup raises NameError. -/
def timezoneNow (now : Int) : Except PyExn Int :=
  if usersViewsModuleNames.contains "timezone" then Except.ok now
  else Except.error PyExn.nameError

/-- Responses of `UserLoginView.post` as seen by the caller. -/
inductive LoginResp
  | locked
  | invalid (warned : Bool)
  | disabled
  | success
  | serverError
deriving DecidableEq

/-- Embedding of `UserLoginView.post` from the `authenticate` call onward
(users/views.py lines 159-242), given the user row `u1` as left by the
pre-check.  On failure, line 187 (`temp_user.failed_login_attempts += 1`)
begins with the guarded attribute read and line 188 evaluates
`timezone.now()`; an exception from either escapes as a 500 with nothing
saved.  Were both to succeed: the incremented counter and failure time are
saved; at exactly 5 an ACCOUNT_LOCKOUT audit row with `user=None` is inserted
(valid keywords; a database failure there is uncaught and becomes a 500);
from 3 failures the 401 carries a warning while attempts remain.  On success
the plain attribute assignments of lines 228-229 succeed in memory (Python
creates instance attributes freely; `save()` persists declared columns
only). -/
def loginAuthenticate (audit : List AuditRow) (dbOk : Bool) (u1 : LoginUser)
    (credsOk : Bool) (now : Int) (ip : String) :
    Option LoginUser × List AuditRow × LoginResp :=
  if credsOk then
    if u1.is_active then
      (some { u1 with failed_login_attempts := 0, last_failed_login := none },
       audit, LoginResp.success)
    else (some u1, audit, LoginResp.disabled)
  else
    match getFailedLoginAttempts u1 with
    | Except.error _ => (some u1, audit, LoginResp.serverError)
    | Except.ok n =>
      match timezoneNow now with
      | Except.error _ => (some u1, audit, LoginResp.serverError)
      | Except.ok nowv =>
        let u2 := { u1 with failed_login_attempts := n + 1,
                            last_failed_login := some nowv }
        if u2.failed_login_attempts = 5 then
          let row : AuditRow :=
            { user := none, action := "ACCOUNT_LOCKOUT",
              resource_type := "USER", resource_id := toString u2.id,
              details := "Account locked for " ++ u2.email ++ " after 5 failed attempts.",
              ip_address := ip }
          match djangoCreate dbOk auditLogFieldNames lockoutAuditKwargNames with
          | Except.ok _ => (some u2, audit ++ [row], LoginResp.invalid false)
          | Except.error _ => (some u2, audit, LoginResp.serverError)
        else
          let warned := decide (3 ≤ u2.failed_login_attempts) &&
            decide (0 < 5 - u2.failed_login_attempts)
          (some u2, audit, LoginResp.invalid warned)

/-- Embedding of `UserLoginView.post` (users/views.py lines 129-242).
`temp_user` is the user row looked up by the supplied identity (none when no
such user exists; then `authenticate` also finds nothing and the recording
block is skipped, so the response is the plain 401).  For an existing user,
line 146 (`temp_user.failed_login_attempts >= 5`) starts with the guarded
attribute read, which raises AttributeError and surfaces as a 500 with the
row unchanged; were the field declared, line 148 would read
`last_failed_login` (short-circuiting on None) and then evaluate
`timezone.now()`, whose NameError would likewise surface as a 500; only past
both would the locked 403 or the reset-and-authenticate path be reached
(lines 150-157, encoded below as written). -/
def loginPost (audit : List AuditRow) (dbOk : Bool)
    (temp_user : Option LoginUser) (credsOk : Bool) (now : Int) (ip : String) :
    Option LoginUser × List AuditRow × LoginResp :=
  match temp_user with
  | none => (none, audit, LoginResp.invalid false)
  | some u0 =>
    match getFailedLoginAttempts u0 with
    | Except.error _ => (some u0, audit, LoginResp.serverError)
    | Except.ok attempts =>
      if 5 ≤ attempts then
        match getLastFailedLogin u0 with
        | Except.error _ => (some u0, audit, LoginResp.serverError)
        | Except.ok lastf =>
          match lastf with
          | some t =>
            match timezoneNow now with
            | Except.error _ => (some u0, audit, LoginResp.serverError)
            | Except.ok nowv =>
              if nowv - t < 900 then (some u0, audit, LoginResp.locked)
              else loginAuthenticate audit dbOk
                { u0 with failed_login_attempts := 0 } credsOk now ip
          | none => loginAuthenticate audit dbOk
              { u0 with failed_login_attempts := 0 } credsOk now ip
      else loginAuthenticate audit dbOk u0 credsOk now ip

/-! ## Concrete scenario constants used by counterexamples and witnesses -/

/-- An empty Django-side state. -/
def emptyClinic : ClinicState := { records := [], txs := [], audit := [] }

/-- The empty ledger (block numbering starts at 1). -/
def emptyLedger : Ledger := { txs := [], nextBlock := 1 }

/-- Ledger holding the single REGISTER transaction of document `doc-1` with
fingerprint `F` for subject `u-42`. -/
def regLedger : Ledger :=
  (Ledger.register emptyLedger "u-42" "doc-1" "F" "LAB_RESULT").1

/-- A persisted CONFIRMED medical record for patient 42, document `doc-1`,
stored fingerprint `F`. -/
def medRec1 : MedicalRecordRow :=
  { id := 1, patient := 42, uploaded_by := some 7, record_type := "LAB_RESULT",
    document_id := "doc-1", document_hash := "F",
    blockchain_address := "0xu-42", transaction_hash := "0x1",
    block_number := some 1, status := "CONFIRMED", is_verified := false }

/-- Clinic state holding just `medRec1`. -/
def clinic1 : ClinicState := { records := [medRec1], txs := [], audit := [] }

/-- A user with 3 failed attempts whose last failure is long past. -/
def staleUser3 : LoginUser :=
  { id := 7, email := "p@x.com", is_active := true,
    failed_login_attempts := 3, last_failed_login := some 0 }

/-- A locked user: 5 failed attempts, last failure 60 seconds ago. -/
def lockedUser : LoginUser :=
  { id := 9, email := "r@x.com", is_active := true,
    failed_login_attempts := 5, last_failed_login := some 60 }

/-! ## Theorems -/

/-- Claim C7: for every plaintext, `decrypt(encrypt(x)) = x` under the
process-wide key, for every nonce the library mixes into the token (so two
encryptions of the same plaintext may differ yet both decrypt back).  The
hypothesis is the `cryptography` library Fernet contract: decrypting a
token produced under the same key returns the original bytes. -/
theorem decrypt_encrypt_roundtrip (fenc : Nat → List Nat → List Nat)
    (fdec : List Nat → Except Unit (List Nat))
    (hlib : ∀ n d, fdec (fenc n d) = Except.ok d) (x : List Nat) (n : Nat) :
    EncryptionManager.decrypt fdec (EncryptionManager.encrypt fenc n (some x)) =
      Except.ok (some x) := by
  simp [EncryptionManager.encrypt, EncryptionManager.decrypt, hlib]

/-- Witness for C7 at the concrete stand-in cipher and plaintext `[7, 8]`. -/
theorem decrypt_encrypt_roundtrip_witness :
    EncryptionManager.decrypt cipherDec
      (EncryptionManager.encrypt cipherEnc 3 (some [7, 8])) =
      Except.ok (some [7, 8]) :=
  decrypt_encrypt_roundtrip cipherEnc cipherDec (fun _ _ => rfl) [7, 8] 3

/-- Claim C8: `encrypt(None) = None`, `decrypt(None) = None`, decrypting a
ciphertext the library rejects returns `None`, and `decrypt` never lets an
exception escape to the caller (every branch is `Except.ok`). -/
theorem encrypt_decrypt_null_and_no_raise (fenc : Nat → List Nat → List Nat)
    (fdec : List Nat → Except Unit (List Nat)) (n : Nat) :
    EncryptionManager.encrypt fenc n none = none ∧
    EncryptionManager.decrypt fdec none = Except.ok none ∧
    (∀ c, fdec c = Except.error () →
      EncryptionManager.decrypt fdec (some c) = Except.ok none) ∧
    (∀ y e, EncryptionManager.decrypt fdec y ≠ Except.error e) := by
  refine ⟨rfl, rfl, ?_, ?_⟩
  · intro c h
    simp [EncryptionManager.decrypt, h]
  · intro y e
    cases y with
    | none => simp [EncryptionManager.decrypt]
    | some c => cases hc : fdec c <;> simp [EncryptionManager.decrypt, hc]

/-- Witness for C8: the stand-in cipher rejects the empty token and `decrypt`
returns `None` for it; `encrypt` passes `None` through. -/
theorem encrypt_decrypt_null_and_no_raise_witness :
    EncryptionManager.decrypt cipherDec (some []) = Except.ok none ∧
    EncryptionManager.encrypt cipherEnc 0 none = none :=
  ⟨(encrypt_decrypt_null_and_no_raise cipherEnc cipherDec 0).2.2.1 [] rfl,
   (encrypt_decrypt_null_and_no_raise cipherEnc cipherDec 0).1⟩

/-- Claim C9: when a document identifier is fresh, the first `register`
succeeds and a second `register` with the same identifier fails with
`DuplicateDocumentError`, leaving the chain exactly as the first call left
it (no new transaction, no new block). -/
theorem register_at_most_once_per_document (L : Ledger)
    (s1 d f1 c1 s2 f2 c2 : String)
    (hfresh : (L.txs.any fun t => t.documentId == d) = false) :
    (Ledger.register L s1 d f1 c1).2 =
      Except.ok { transaction_hash := mkTxHash L.nextBlock,
                  block_number := L.nextBlock, gas_used := 21000 } ∧
    Ledger.register (Ledger.register L s1 d f1 c1).1 s2 d f2 c2 =
      ((Ledger.register L s1 d f1 c1).1,
       Except.error LedgerError.DuplicateDocumentError) := by
  constructor
  · simp [Ledger.register, hfresh]
  · have hdup : (((Ledger.register L s1 d f1 c1).1).txs.any
        fun t => t.documentId == d) = true := by
      simp [Ledger.register, hfresh, List.any_append]
    simp [Ledger.register, hfresh, hdup]

/-- Witness for C9 on the empty ledger and document `doc-1`. -/
theorem register_at_most_once_per_document_witness :
    (Ledger.register emptyLedger "u-42" "doc-1" "F" "LAB_RESULT").2 =
      Except.ok { transaction_hash := mkTxHash 1, block_number := 1,
                  gas_used := 21000 } ∧
    Ledger.register regLedger "u-42" "doc-1" "F2" "XRAY" =
      (regLedger, Except.error LedgerError.DuplicateDocumentError) :=
  register_at_most_once_per_document emptyLedger "u-42" "doc-1" "F"
    "LAB_RESULT" "u-42" "F2" "XRAY" (by decide)

/-- Claim C10: every `log_action` call passes `is_encrypted` to
`AuditLog.objects.create`, but `AuditLog` declares no such field, so the call
raises `TypeError` for all argument values and no audit entry is recorded. -/
theorem log_action_always_raises_typeerror (audit : List AuditRow)
    (dbOk : Bool) (user : Option Nat) (action rt rid details ip : String)
    (is_enc : Bool) :
    log_action audit dbOk user action rt rid details ip is_enc =
      Except.error PyErr.typeError := rfl

/-- Claim C1 (code bug evidence): no document registration ever succeeds and
no `MedicalRecord` row is ever persisted — even when the ledger returns a
receipt, `serializer.save` passes `is_encrypted`, undeclared on the model, so
creation raises `TypeError` and the generic handler returns a 500 with the
state unchanged.  The attempted creation moreover sets `is_verified=True`
(medical_views.py line 136), not false as the claim states.  The last two
conjuncts pin the root cause in the declared-field and keyword lists. -/
theorem upload_view_never_persists_record (st : ClinicState) (dbOk : Bool)
    (rcpt : Receipt) (patientId uploaderId : Nat)
    (record_type docId docHash ip : String) :
    uploadPost st dbOk (Except.ok rcpt) patientId uploaderId record_type
      docId docHash ip = (st, MedResp.serverError) ∧
    medicalRecordFieldNames.contains "is_encrypted" = false ∧
    uploadSaveKwargNames.contains "is_encrypted" = true :=
  ⟨rfl, rfl, rfl⟩

/-- Claim C2 counterexample: at a concrete failed ledger registration the
view persists no record at all — in particular no record with status FAILED —
and appends no audit entry, contrary to the claim. -/
theorem upload_ledger_failure_no_failed_record_at_input :
    uploadPost emptyClinic true (Except.error LedgerError.DuplicateDocumentError)
      42 7 "LAB_RESULT" "doc-1" "F" "1.2.3.4" = (emptyClinic, MedResp.serverError) ∧
    emptyClinic.records = [] ∧ emptyClinic.audit = [] :=
  ⟨rfl, rfl, rfl⟩

/-- Claim C2 as amended: on every ledger failure the upload view returns a
500 error and persists nothing — no `IntegrityRecord` in any status (so in
particular none in CONFIRMED, and none in FAILED either) and no audit
entry. -/
theorem upload_ledger_failure_persists_nothing (st : ClinicState)
    (dbOk : Bool) (e : LedgerError) (patientId uploaderId : Nat)
    (record_type docId docHash ip : String) :
    uploadPost st dbOk (Except.error e) patientId uploaderId record_type
      docId docHash ip = (st, MedResp.serverError) := rfl

/-- Claim C3 counterexample: a concrete verify execution in which the primary
operation completed (the verified flag was persisted and the VERIFY
transaction row appended) but the failing audit append turned the response
into a 500 error, and no audit entry exists. -/
theorem verify_audit_failure_changes_outcome_at_input :
    (verifyPost clinic1 regLedger true 42 1 "F" "9.9.9.9").2.2 =
      MedResp.serverError ∧
    (verifyPost clinic1 regLedger true 42 1 "F" "9.9.9.9").1.records =
      [{ medRec1 with is_verified := true }] ∧
    (verifyPost clinic1 regLedger true 42 1 "F" "9.9.9.9").1.txs.length = 1 ∧
    (verifyPost clinic1 regLedger true 42 1 "F" "9.9.9.9").1.audit = [] :=
  ⟨rfl, rfl, rfl, rfl⟩

/-- Claim C3 as amended: audit-write failures are absorbed only in
`AuditMiddleware.process_response`, which returns the primary response
unchanged in every branch; in the verify view an audit-append failure is not
absorbed — whenever the record lookup and ledger verification succeed, the
caller receives a 500 even though the record update and the transaction row
have already persisted (the audit table is left untouched). -/
theorem audit_failure_absorbed_only_in_middleware :
    (∀ (α : Type) (audit : List AuditRow) (dbOk isAuth : Bool)
        (method path ip : String) (resp : α),
      (processResponse audit dbOk isAuth method path ip resp).2 = resp) ∧
    (∀ (st : ClinicState) (L : Ledger) (patientId recordId : Nat)
        (currentHash ip : String) (r : MedicalRecordRow) (L2 : Ledger)
        (vr : VerifyResult),
      st.records.find? (fun x => x.id == recordId && x.patient == patientId) =
        some r →
      Ledger.verify L r.document_id currentHash = (L2, Except.ok vr) →
      (verifyPost st L true patientId recordId currentHash ip).2.2 =
        MedResp.serverError ∧
      (verifyPost st L true patientId recordId currentHash ip).1.audit =
        st.audit ∧
      (verifyPost st L true patientId recordId currentHash ip).1.txs.length =
        st.txs.length + 1) := by
  constructor
  · intro α audit dbOk isAuth method path ip resp
    unfold processResponse
    split
    · split
      · rfl
      · split <;> rfl
    · rfl
  · intro st L patientId recordId currentHash ip r L2 vr hfind hver
    have hok : djangoCreate true blockchainTransactionFieldNames
        verifyTxKwargNames = Except.ok () := rfl
    have hlog : ∀ (a : List AuditRow) (u : Option Nat) (act rt rid det i : String)
        (enc : Bool), log_action a true u act rt rid det i enc =
        Except.error PyErr.typeError := fun _ _ _ _ _ _ _ _ => rfl
    simp only [verifyPost, hfind, hver, hok, hlog, if_true, List.length_append,
      List.length_cons, List.length_nil]
    exact ⟨trivial, trivial, trivial⟩

/-- Witness for the amended C3: the middleware leaves a concrete response
unchanged, and the concrete verify run from the counterexample scenario
surfaces the audit failure as a 500. -/
theorem audit_failure_absorbed_only_in_middleware_witness :
    (processResponse [] true true "POST" "/api/records/1/" "2.2.2.2"
      (0 : Nat)).2 = 0 ∧
    (verifyPost clinic1 regLedger true 42 1 "F" "2.2.2.2").2.2 =
      MedResp.serverError :=
  ⟨audit_failure_absorbed_only_in_middleware.1 Nat [] true true "POST"
      "/api/records/1/" "2.2.2.2" 0,
   (audit_failure_absorbed_only_in_middleware.2 clinic1 regLedger 42 1 "F"
      "2.2.2.2" medRec1 _ _ rfl rfl).1⟩

/-- Claim C4 counterexample: a subject with 3 recorded failures whose last
failure lies far outside the lockout window fails again, and the counter ends
at 3 — unchanged, not 1: the request dies with a 500 (AttributeError at line
146 reading the undeclared `failed_login_attempts`; the `timezone` name at
lines 148/188 is unbound besides) before any counter logic runs. -/
theorem stale_failure_counter_not_reset_at_three :
    ((loginPost [] true (some staleUser3) false 10000 "3.3.3.3").1.map
      (fun v => v.failed_login_attempts)) = some 3 ∧
    ((loginPost [] true (some staleUser3) false 10000 "3.3.3.3").1.map
      (fun v => v.failed_login_attempts)) ≠ some 1 ∧
    (loginPost [] true (some staleUser3) false 10000 "3.3.3.3").2.2 =
      LoginResp.serverError := by
  refine ⟨rfl, by decide, rfl⟩

/-- Claim C4 as amended: no failed login attempt ever updates the
failed-attempt counter, however much time has elapsed since the last failure:
for any subject the lookup finds, the view raises at line 146 (the `User`
model declares no `failed_login_attempts`, and evaluating `timezone.now()` at
lines 148/188 would raise NameError besides) and returns a 500 server error
with the stored row and the audit trail unchanged — so the counter never ends
at 1 after a failed attempt unless it already was 1. -/
theorem failed_attempt_counter_never_updated (audit : List AuditRow)
    (dbOk : Bool) (u : LoginUser) (now : Int) (ip : String) :
    loginPost audit dbOk (some u) false now ip =
      (some u, audit, LoginResp.serverError) ∧
    userFieldNames.contains "failed_login_attempts" = false :=
  ⟨rfl, rfl⟩

/-- Claim C5 (code bug evidence): a subject in the locked state (5 failed
attempts, last failure 60 seconds ago) is not refused with the locked-account
response — with correct credentials and with incorrect ones alike the request
returns a 500 server error with the row and audit trail unchanged, because
line 146 raises AttributeError (`failed_login_attempts` undeclared on `User`)
and line 148 would raise NameError (`timezone` unimported); the locked 403
branch of lines 150-153, which the claim and the view OpenAPI schema
describe, is unreachable. -/
theorem locked_login_attempt_returns_server_error :
    loginPost [] true (some lockedUser) true 120 "4.4.4.4" =
      (some lockedUser, [], LoginResp.serverError) ∧
    loginPost [] true (some lockedUser) false 120 "4.4.4.4" =
      (some lockedUser, [], LoginResp.serverError) ∧
    usersViewsModuleNames.contains "timezone" = false :=
  ⟨rfl, rfl, rfl⟩

/-- Claim C6 (code bug evidence): on a concrete verify of a registered
document the persisted verified flag equals the ledger `is_valid` value, the
VERIFY transaction row is appended with status SUCCESS exactly when
`is_valid` (FAILED otherwise), and the CONFIRMED status is untouched — but
no VERIFY_RECORD audit entry is appended (the `log_action` call raises) and
the caller receives a 500 instead of the verification result. -/
theorem verify_view_effects_and_missing_audit :
    ((verifyPost clinic1 regLedger true 42 1 "F" "6.6.6.6").1.records.map
      (fun r => r.is_verified)) = [true] ∧
    ((verifyPost clinic1 regLedger true 42 1 "F" "6.6.6.6").1.records.map
      (fun r => r.status)) = ["CONFIRMED"] ∧
    ((verifyPost clinic1 regLedger true 42 1 "F" "6.6.6.6").1.txs.map
      (fun x => (x.transaction_type, x.status))) = [("VERIFY", "SUCCESS")] ∧
    (verifyPost clinic1 regLedger true 42 1 "F" "6.6.6.6").1.audit = [] ∧
    (verifyPost clinic1 regLedger true 42 1 "F" "6.6.6.6").2.2 =
      MedResp.serverError ∧
    ((verifyPost clinic1 regLedger true 42 1 "F2" "6.6.6.6").1.records.map
      (fun r => r.is_verified)) = [false] ∧
    ((verifyPost clinic1 regLedger true 42 1 "F2" "6.6.6.6").1.records.map
      (fun r => r.status)) = ["CONFIRMED"] ∧
    ((verifyPost clinic1 regLedger true 42 1 "F2" "6.6.6.6").1.txs.map
      (fun x => (x.transaction_type, x.status))) = [("VERIFY", "FAILED")] ∧
    (verifyPost clinic1 regLedger true 42 1 "F2" "6.6.6.6").1.audit = [] ∧
    (verifyPost clinic1 regLedger true 42 1 "F2" "6.6.6.6").2.2 =
      MedResp.serverError :=
  ⟨rfl, rfl, rfl, rfl, rfl, rfl, rfl, rfl, rfl, rfl⟩

end LifeX
